import Mathlib

/-!
Verification of the NoiScript transcription page (`src/app/page.tsx`).

The page is a React function component.  Its state is a record of
`useState` fields; its behaviour is a set of event handlers
(`startRecording`, `stopRecording`, `handleFileChange`, `clearUpload`,
`downloadTranscript`, `handleSummarize`, and the speech-recognition
callbacks `onresult` / `onerror` / `onend` installed by
`initializeSpeechRecognition`).  We embed the component shallowly:

* each `useState` field becomes a field of the structure `St`;
* each handler becomes a function `St → St` (asynchronous continuations
  — the pending `FileReader`, the awaited `transcribeAudio` and
  `summarizeTranscription` calls — become explicit `pending*` fields,
  holding exactly the data the corresponding closure captures);
* JavaScript closure capture is modelled faithfully: the recognition
  callbacks are created inside `initializeSpeechRecognition`, which is a
  `useCallback` invoked from `startRecording`'s `getUserMedia.then`
  continuation.  At every such invocation the render-scope variable
  `isRecording` holds `false` (`startRecording` returns early when it is
  `true`), and the `onend` closure keeps that captured value forever —
  the handler object is never re-created.  The captured value is stored
  in `RecHandle.capturedIsRecording`.

User interaction is modelled by the event type `Ev`; an event fires only
when the corresponding button is enabled (the `disabled` attributes in
the JSX are part of the source and are transcribed into `enabled`).
-/

namespace NoiScript

/-- Handler object created by `initializeSpeechRecognition`
(`page.tsx` lines 56–128).  The field records the value of the
render-scope variable `isRecording` that the `onresult`/`onend`
closures captured at creation time. -/
structure RecHandle where
  capturedIsRecording : Bool
deriving Repr, DecidableEq

/-- State of the `Home` component (`page.tsx` lines 18–32), plus the
explicit representation of in-flight asynchronous work:
`sessionActive` is true while the external recognition session is
running (between a successful `recognition.start()` and the delivery of
`onend`); `pendingRead` holds the file name captured by an in-flight
`FileReader`; `pendingCall` the file name captured by an awaited
`transcribeAudio` call; `pendingSummary` the `finalTranscript` value
captured by an awaited `summarizeTranscription` call. -/
structure St where
  isRecording : Bool
  interimTranscript : String
  finalTranscript : String
  uploadedFileName : Option String
  uploadedAudioDataUri : Option String
  isProcessing : Bool
  isPlaying : Bool
  isSummarizing : Bool
  recognition : Option RecHandle
  sessionActive : Bool
  pendingRead : Option String
  pendingCall : Option String
  pendingSummary : Option String
deriving Repr, DecidableEq

/-- Initial component state: every flag false, every string empty,
every reference null. -/
def init : St :=
  { isRecording := false, interimTranscript := "", finalTranscript := ""
  , uploadedFileName := none, uploadedAudioDataUri := none
  , isProcessing := false, isPlaying := false, isSummarizing := false
  , recognition := none, sessionActive := false
  , pendingRead := none, pendingCall := none, pendingSummary := none }

/-- The `onresult` loop (`page.tsx` lines 72–81): walk the event's
results in order, accumulating final transcripts into the first
component and non-final ones into the second.  Each result is a pair
`(isFinal, transcript)`. -/
def splitResults : List (Bool × String) → String × String
  | [] => ("", "")
  | (isFin, t) :: rs =>
      let rest := splitResults rs
      if isFin then (t ++ rest.1, rest.2) else (rest.1, t ++ rest.2)

/-- The `onresult` handler (`page.tsx` lines 72–86): the interim string
replaces `interimTranscript` wholesale; when the accumulated final
string is non-empty (`if (final)` — the empty string is falsy) it is
appended to `finalTranscript` followed by a single space. -/
def onresultStep (rs : List (Bool × String)) (s : St) : St :=
  let final := (splitResults rs).1
  let interim := (splitResults rs).2
  { s with interimTranscript := interim
         , finalTranscript :=
             if final = "" then s.finalTranscript
             else s.finalTranscript ++ final ++ " " }

/-- The `onerror` handler (`page.tsx` lines 88–107): after choosing a
toast message it sets `isRecording` and `isProcessing` to false.  It
does not touch the transcripts. -/
def onerrorStep (s : St) : St :=
  { s with isRecording := false, isProcessing := false }

/-- The `onend` handler (`page.tsx` lines 109–125).  The external
session has ended.  The guard `if (isRecording && recognitionRef.current)`
reads the closure-captured `isRecording` (see `RecHandle`) and the live
ref.  In the restart branch `recognitionRef.current.start()` is retried;
`restartOk` tells whether that call succeeds (the `catch` sets
`isRecording`/`isProcessing` to false). -/
def onendStep (restartOk : Bool) (s : St) : St :=
  let s0 := { s with sessionActive := false }
  match s0.recognition with
  | some h =>
      if h.capturedIsRecording then
        if restartOk then { s0 with sessionActive := true }
        else { s0 with isRecording := false, isProcessing := false }
      else { s0 with isRecording := false, isProcessing := false }
  | none => { s0 with isRecording := false, isProcessing := false }

/-- The `startRecording` handler (`page.tsx` lines 130–177).
`sr` is the `SpeechRecognition` availability check, `granted` the
outcome of `getUserMedia`, `startOk` whether `recognition.start()`
throws.  On the success path the handlers are created by
`initializeSpeechRecognition`, capturing the current `isRecording`
value; the transcripts are cleared and `isRecording`/`isProcessing`
set; if `start()` throws, the `catch` resets both flags. -/
def startRecordingStep (sr granted startOk : Bool) (s : St) : St :=
  if !sr || s.isProcessing || s.isRecording then s
  else if s.uploadedFileName.isSome then s
  else if !granted then s
  else
    let s1 := { s with recognition := some ⟨s.isRecording⟩
                     , finalTranscript := "", interimTranscript := "" }
    if startOk then
      { s1 with isRecording := true, isProcessing := true, sessionActive := true }
    else
      { s1 with isRecording := false, isProcessing := false }

/-- The `stopRecording` handler (`page.tsx` lines 179–189): guarded by
`recognitionRef.current && isRecording`; it requests the external
session to end (`recognition.stop()`, the resulting `onend` arrives as
a later event) and clears `interimTranscript` immediately.  It sets no
other state — in particular there is no stopping flag, and
`isRecording` stays true until `onend` fires. -/
def stopRecordingStep (s : St) : St :=
  if s.recognition.isSome && s.isRecording then
    { s with interimTranscript := "" }
  else s

/-- The `downloadTranscript` handler (`page.tsx` lines 191–213) as an
observation: `none` models the `Nothing to Download` rejection, `some`
carries the download file name and its exact content. -/
def downloadTranscriptResult (s : St) : Option (String × String) :=
  if s.finalTranscript = "" then none
  else some ("noiscript_transcription.txt", s.finalTranscript)

/-- The check `file.type.startsWith('audio/')` (`page.tsx` line 218),
embedded as a character-level prefix test (JavaScript `startsWith` is
exactly a prefix test on the string's characters). -/
def typeIsAudio (ftype : String) : Bool :=
  "audio/".data.isPrefixOf ftype.data

/-- The synchronous part of `handleFileChange` (`page.tsx`
lines 215–295) for a selected file with name `fname` and declared
content type `ftype`.  A non-`audio/` type is rejected after nulling the
uploaded-file fields.  Otherwise an active recording is stopped, the
transcripts are cleared, the loading flag set, the file name shown as
`Processing...`, and a `FileReader` is started (its `onloadend`
closure captures `fname`). -/
def handleFileChangeStep (fname ftype : String) (s : St) : St :=
  if !typeIsAudio ftype then
    { s with uploadedFileName := none, uploadedAudioDataUri := none }
  else
    let s1 := if s.isRecording then stopRecordingStep s else s
    { s1 with finalTranscript := "", interimTranscript := ""
            , isProcessing := true
            , uploadedFileName := some "Processing..."
            , uploadedAudioDataUri := none
            , pendingRead := some fname }

/-- The `reader.onloadend` continuation (`page.tsx` lines 242–251, up
to the `await`): stores the data URI, restores the real file name, and
issues the remote `transcribeAudio` call (whose continuation captures
the file name). -/
def readerLoadEndStep (uri : String) (s : St) : St :=
  match s.pendingRead with
  | none => s
  | some fname =>
      { s with pendingRead := none
             , uploadedAudioDataUri := some uri
             , uploadedFileName := some fname
             , pendingCall := some fname }

/-- The `reader.onerror` continuation (`page.tsx` lines 277–288): nulls
the uploaded-file fields and clears the loading flag.  It does not
write `finalTranscript`. -/
def readerErrorStep (s : St) : St :=
  match s.pendingRead with
  | none => s
  | some _ =>
      { s with pendingRead := none
             , uploadedFileName := none, uploadedAudioDataUri := none
             , isProcessing := false }

/-- Resolution of the awaited `transcribeAudio` call (`page.tsx`
lines 252–274).  `res = some t` models a response `{ transcription: t }`;
`res = none` models a thrown error.  `if (result && result.transcription)`
treats the empty string as falsy, so an empty transcription takes the
`throw`/`catch` path; the `catch` writes the failure placeholder and the
`finally` clears the loading flag on every path. -/
def transcribeResolveStep (res : Option String) (s : St) : St :=
  match s.pendingCall with
  | none => s
  | some fname =>
      let s1 := { s with pendingCall := none }
      match res with
      | some t =>
          if t = "" then
            { s1 with finalTranscript := "Failed to transcribe: " ++ fname
                    , isProcessing := false }
          else
            { s1 with finalTranscript := t, isProcessing := false }
      | none =>
          { s1 with finalTranscript := "Failed to transcribe: " ++ fname
                  , isProcessing := false }

/-- The `clearUpload` handler (`page.tsx` lines 302–316): discards the
asset, clears `finalTranscript`, stops playback.  It performs no
staleness bookkeeping: any pending read or remote call is untouched and
its continuation will still run. -/
def clearUploadStep (s : St) : St :=
  { s with uploadedFileName := none, uploadedAudioDataUri := none
         , finalTranscript := "", isPlaying := false }

/-- The synchronous part of `handleSummarize` (`page.tsx`
lines 336–341): rejected when `finalTranscript` is empty or a
summarization is already running; otherwise the flag is set and the
remote call issued, its continuation capturing the current
`finalTranscript`. -/
def handleSummarizeStep (s : St) : St :=
  if s.finalTranscript = "" || s.isSummarizing then s
  else { s with isSummarizing := true, pendingSummary := some s.finalTranscript }

/-- Resolution of the awaited `summarizeTranscription` call (`page.tsx`
lines 342–357).  On a non-empty summary the transcript is replaced by
the summary template built from the captured `finalTranscript`; an
empty summary throws and the `catch` leaves the transcript alone; the
`finally` clears the flag on every path. -/
def summarizeResolveStep (res : Option String) (s : St) : St :=
  match s.pendingSummary with
  | none => s
  | some captured =>
      let s1 := { s with pendingSummary := none, isSummarizing := false }
      match res with
      | some sum =>
          if sum = "" then s1
          else
            { s1 with finalTranscript :=
                "Summary:\n" ++ sum ++ "\n\nOriginal Transcription:\n" ++ captured }
      | none => s1

/-- The displayed text (`page.tsx` line 384):
`const currentTranscript = finalTranscript + interimTranscript`. -/
def currentTranscript (s : St) : String :=
  s.finalTranscript ++ s.interimTranscript

/-- User and environment events.  Click events correspond to the
buttons of the page; the remaining events are deliveries of the
asynchronous callbacks. -/
inductive Ev where
  | clickRecord (granted startOk : Bool)
  | clickStop
  | result (rs : List (Bool × String))
  | ended (restartOk : Bool)
  | errored
  | selectFile (fname ftype : String)
  | readEnd (uri : String)
  | readErr
  | transResolve (res : Option String)
  | clickClear
  | clickSummarize
  | sumResolve (res : Option String)

/-- Enabling condition of each event, in a browser that supports the
speech-recognition capability.  For click events this is the negation
of the button's `disabled` attribute in the JSX (`page.tsx`
lines 419–504; the Clear button is only rendered when
`uploadedFileName && !isProcessing`, line 492); the asynchronous
events require the corresponding work to be in flight. -/
def enabled : Ev → St → Bool
  | .clickRecord _ _, s =>
      !s.isRecording && s.uploadedFileName.isNone && !s.isProcessing
  | .clickStop, s => s.isRecording && !s.isProcessing
  | .result _, s => s.sessionActive
  | .ended _, s => s.sessionActive
  | .errored, s => s.sessionActive
  | .selectFile _ _, s => !s.isRecording && !s.isProcessing
  | .readEnd _, s => s.pendingRead.isSome
  | .readErr, s => s.pendingRead.isSome
  | .transResolve _, s => s.pendingCall.isSome
  | .clickClear, s => s.uploadedFileName.isSome && !s.isProcessing
  | .clickSummarize, s =>
      !(s.finalTranscript = "") && !s.isSummarizing && !s.isProcessing && !s.isRecording
  | .sumResolve _, s => s.pendingSummary.isSome

/-- Effect of an event: the corresponding handler.  An aborting
recognition error fires `onerror` and then `onend` back to back, which
`errored` delivers as one composite event. -/
def applyEv : Ev → St → St
  | .clickRecord g k, s => startRecordingStep true g k s
  | .clickStop, s => stopRecordingStep s
  | .result rs, s => onresultStep rs s
  | .ended rk, s => onendStep rk s
  | .errored, s => onendStep false (onerrorStep s)
  | .selectFile n t, s => handleFileChangeStep n t s
  | .readEnd u, s => readerLoadEndStep u s
  | .readErr, s => readerErrorStep s
  | .transResolve r, s => transcribeResolveStep r s
  | .clickClear, s => clearUploadStep s
  | .clickSummarize, s => handleSummarizeStep s
  | .sumResolve r, s => summarizeResolveStep r s

/-- Guarded step: an event that is not enabled does nothing. -/
def stepIf (ev : Ev) (s : St) : St :=
  if enabled ev s then applyEv ev s else s

/-- Run a sequence of events from a state. -/
def run (evs : List Ev) (s : St) : St :=
  evs.foldl (fun s e => stepIf e s) s

/-- A state the page can actually be in. -/
def Reachable (s : St) : Prop :=
  ∃ evs : List Ev, s = run evs init

/-- Mode `LiveRecording` of the specification, as realised by the code:
the `isRecording` flag. -/
def liveRecording (s : St) : Bool := s.isRecording

/-- Mode `UploadProcessing` of the specification, as realised by the
code: an upload's file read or remote transcription call is in
flight. -/
def uploadProcessing (s : St) : Bool :=
  s.pendingRead.isSome || s.pendingCall.isSome

/-- Mode `Summarizing` of the specification, as realised by the code:
the `isSummarizing` flag. -/
def summarizing (s : St) : Bool := s.isSummarizing

/-- Concatenation, in arrival order, of the final fragments of a
delivery event. -/
def concatFinals : List (Bool × String) → String
  | [] => ""
  | (true, t) :: rs => t ++ concatFinals rs
  | (false, _) :: rs => concatFinals rs

/-- Concatenation, in arrival order, of the non-final fragments of a
delivery event. -/
def concatNonFinal : List (Bool × String) → String
  | [] => ""
  | (true, _) :: rs => concatNonFinal rs
  | (false, t) :: rs => t ++ concatNonFinal rs

/-- Modelled from the spec: `appendFinal(segment)` is
`finalText += segment + " "` (spec §4.1), applied to each final
fragment of the event in arrival order (spec §4.2). -/
def specAppendFinals (fin : String) : List (Bool × String) → String
  | [] => fin
  | (true, t) :: rs => specAppendFinals (fin ++ t ++ " ") rs
  | (false, _) :: rs => specAppendFinals fin rs

/-- Modelled from the spec: the per-event merge rule of §4.2 — the
non-final fragments are concatenated into one interim string passed to
`setInterim`, and each final fragment is passed to `appendFinal` in
order. -/
def specMergeStep (rs : List (Bool × String)) (s : St) : St :=
  { s with finalTranscript := specAppendFinals s.finalTranscript rs
         , interimTranscript := concatNonFinal rs }

/-- Inductive invariant of the event machine.  Conjuncts:
loading flag covers a live recording; loading flag covers an in-flight
upload read and an in-flight remote call; a live recording and an
in-flight upload never coexist; read and remote call are never both in
flight; an active external session implies the recording flags; every
recognition handler ever created captured `isRecording = false`. -/
def Inv (s : St) : Prop :=
  (s.isRecording = true → s.isProcessing = true) ∧
  (s.pendingRead.isSome = true → s.isProcessing = true) ∧
  (s.pendingCall.isSome = true → s.isProcessing = true) ∧
  ¬(liveRecording s = true ∧ uploadProcessing s = true) ∧
  ¬(s.pendingRead.isSome = true ∧ s.pendingCall.isSome = true) ∧
  (s.sessionActive = true → s.isRecording = true ∧ s.isProcessing = true) ∧
  s.recognition ≠ some ⟨true⟩

theorem splitResults_eq (rs : List (Bool × String)) :
    splitResults rs = (concatFinals rs, concatNonFinal rs) := by
  induction rs with
  | nil => rfl
  | cons r rs ih =>
      obtain ⟨isFin, t⟩ := r
      cases isFin <;> simp [splitResults, concatFinals, concatNonFinal, ih]

theorem inv_init : Inv init := by
  constructor <;> decide

theorem inv_stepIf (ev : Ev) (s : St) (h : Inv s) : Inv (stepIf ev s) := by
  obtain ⟨ir, it, ft, ufn, uri, ip, ipl, isum, rec, sa, pr, pc, ps⟩ := s
  obtain ⟨h1, h2, h3, h4, h5, h6, h7⟩ := h
  simp only [liveRecording, uploadProcessing] at h4
  cases ev with
  | clickRecord g k =>
      cases ir <;> cases ip <;>
        simp_all [stepIf, enabled, applyEv, Inv, startRecordingStep,
          liveRecording, uploadProcessing]
      cases ufn <;> cases g <;> cases k <;>
        simp_all [Inv, liveRecording, uploadProcessing]
  | clickStop =>
      cases ir <;> cases ip <;>
        simp_all [stepIf, enabled, applyEv, Inv, stopRecordingStep,
          liveRecording, uploadProcessing]
  | result rs =>
      cases sa <;>
        simp_all [stepIf, enabled, applyEv, Inv, onresultStep,
          liveRecording, uploadProcessing]
  | ended rk =>
      cases sa <;>
        simp_all [stepIf, enabled, applyEv, Inv, onendStep,
          liveRecording, uploadProcessing]
      cases rec with
      | none => simp_all [Inv, liveRecording, uploadProcessing]
      | some hd =>
          obtain ⟨b⟩ := hd
          cases b <;> simp_all [Inv, liveRecording, uploadProcessing]
  | errored =>
      cases sa <;>
        simp_all [stepIf, enabled, applyEv, Inv, onendStep, onerrorStep,
          liveRecording, uploadProcessing]
      cases rec with
      | none => simp_all [Inv, liveRecording, uploadProcessing]
      | some hd =>
          obtain ⟨b⟩ := hd
          cases b <;> simp_all [Inv, liveRecording, uploadProcessing]
  | selectFile n t =>
      cases ir <;> cases ip <;>
        simp_all [stepIf, enabled, applyEv, Inv, handleFileChangeStep,
          stopRecordingStep, liveRecording, uploadProcessing]
      by_cases hts : typeIsAudio t = true <;>
        simp_all [Inv, liveRecording, uploadProcessing]
  | readEnd u =>
      cases pr <;>
        simp_all [stepIf, enabled, applyEv, Inv, readerLoadEndStep,
          liveRecording, uploadProcessing]
  | readErr =>
      cases pr <;>
        simp_all [stepIf, enabled, applyEv, Inv, readerErrorStep,
          liveRecording, uploadProcessing]
  | transResolve r =>
      cases pc <;>
        simp_all [stepIf, enabled, applyEv, Inv, transcribeResolveStep,
          liveRecording, uploadProcessing]
      cases r with
      | none => simp_all [Inv, liveRecording, uploadProcessing]
      | some tr =>
          by_cases htr : tr = "" <;> simp_all [Inv, liveRecording, uploadProcessing]
  | clickClear =>
      cases ip <;> cases ufn <;>
        simp_all [stepIf, enabled, applyEv, Inv, clearUploadStep,
          liveRecording, uploadProcessing]
  | clickSummarize =>
      cases ir <;> cases ip <;> cases isum <;>
        by_cases hft : ft = "" <;>
        simp_all [stepIf, enabled, applyEv, Inv, handleSummarizeStep,
          liveRecording, uploadProcessing]
  | sumResolve r =>
      cases ps <;>
        simp_all [stepIf, enabled, applyEv, Inv, summarizeResolveStep,
          liveRecording, uploadProcessing]
      cases r with
      | none => simp_all [Inv, liveRecording, uploadProcessing]
      | some sm =>
          by_cases hsm : sm = "" <;> simp_all [Inv, liveRecording, uploadProcessing]

theorem inv_run (evs : List Ev) (s : St) (h : Inv s) : Inv (run evs s) := by
  induction evs generalizing s with
  | nil => exact h
  | cons e evs ih =>
      have : run (e :: evs) s = run evs (stepIf e s) := rfl
      rw [this]
      exact ih _ (inv_stepIf e s h)

theorem reachable_inv (s : St) (h : Reachable s) : Inv s := by
  obtain ⟨evs, rfl⟩ := h
  exact inv_run evs init inv_init

/-- C1 (code_bug evaluation).  Stale-response guard: the spec requires
that a remote transcription response arriving after `clear()` be
detected and discarded, leaving `finalText` empty.  The code has no
generation counter or identity check: after selecting a valid file
(`handleFileChange`), completing the file read, and invoking
`clearUpload` while the `transcribeAudio` call is still awaited
(`pendingCall` is untouched by `clearUpload`), the response's
continuation runs `setFinalTranscript(result.transcription)`
unconditionally, resurrecting the stale text. -/
theorem c1_stale_response_applied :
    (clearUploadStep (readerLoadEndStep "data:audio/mpeg;base64,AA"
        (handleFileChangeStep "a.mp3" "audio/mpeg" init))).finalTranscript = "" ∧
    (clearUploadStep (readerLoadEndStep "data:audio/mpeg;base64,AA"
        (handleFileChangeStep "a.mp3" "audio/mpeg" init))).pendingCall = some "a.mp3" ∧
    (transcribeResolveStep (some "stale text")
      (clearUploadStep (readerLoadEndStep "data:audio/mpeg;base64,AA"
        (handleFileChangeStep "a.mp3" "audio/mpeg" init)))).finalTranscript
      = "stale text" := by
  decide

/-- C4 (code_bug evaluation).  Auto-restart policy: the spec (and the
comment at `page.tsx` line 112) says a spontaneous `onend` during
`LiveRecording` reissues `start()` and the mode stays `LiveRecording`.
In the code the `onend` closure captured `isRecording = false` (the
value in scope when `initializeSpeechRecognition` created the handler —
`startRecording` returns early when it is true), so the restart branch
is unreachable: even when a restart would succeed (`restartOk = true`),
the session falls to `Idle` with no restart. -/
theorem c4_no_restart_on_end :
    (run [Ev.clickRecord true true] init).isRecording = true ∧
    (run [Ev.clickRecord true true] init).sessionActive = true ∧
    (run [Ev.clickRecord true true] init).recognition = some ⟨false⟩ ∧
    (run [Ev.clickRecord true true, Ev.ended true] init).isRecording = false ∧
    (run [Ev.clickRecord true true, Ev.ended true] init).isProcessing = false ∧
    (run [Ev.clickRecord true true, Ev.ended true] init).sessionActive = false := by
  decide

/-- C2 (counterexample).  Mode mutual exclusion fails: the Record
button's `disabled` attribute and `startRecording`'s own guard check
`isProcessing`, `isRecording` and `uploadedFileName`, but not
`isSummarizing`; so after a recording produces text, starting a
summarization, and then clicking Record again, the reachable state has
both `LiveRecording` and `Summarizing` active (and the attempt was not
rejected: it cleared the Transcript Buffer). -/
theorem c2_counterexample :
    liveRecording (run [Ev.clickRecord true true, Ev.result [(true, "hi")],
      Ev.ended false, Ev.clickSummarize, Ev.clickRecord true true] init) = true ∧
    summarizing (run [Ev.clickRecord true true, Ev.result [(true, "hi")],
      Ev.ended false, Ev.clickSummarize, Ev.clickRecord true true] init) = true := by
  decide

/-- C2 (amended).  In every reachable state at most one of
`LiveRecording` and `UploadProcessing` is active; an attempt to start a
recording while the loading flag or recording flag is set is rejected
with no state change at all (hence none on the Transcript Buffer), and
an attempt to summarize while a summarization is running is likewise
rejected unchanged.  `Summarizing` is not mutually excluded from the
other two modes: starting a recording or an upload while summarizing is
not rejected. -/
theorem c2_mutual_exclusion_amended (s : St) (hs : Reachable s) :
    ¬(liveRecording s = true ∧ uploadProcessing s = true) ∧
    (∀ g k : Bool, s.isProcessing = true ∨ s.isRecording = true →
        startRecordingStep true g k s = s) ∧
    (s.isSummarizing = true → handleSummarizeStep s = s) := by
  refine ⟨(reachable_inv s hs).2.2.2.1, ?_, ?_⟩
  · intro g k hp
    unfold startRecordingStep
    rcases hp with hp | hp <;> simp [hp]
  · intro hsum
    unfold handleSummarizeStep
    simp [hsum]

/-- C2 (witness for the amended theorem), at the reachable state in
which a recording has just started: the two modes are not both active,
and a second Record click is rejected with no state change. -/
theorem c2_mutual_exclusion_amended_witness :
    ¬(liveRecording (run [Ev.clickRecord true true] init) = true ∧
      uploadProcessing (run [Ev.clickRecord true true] init) = true) ∧
    startRecordingStep true true true (run [Ev.clickRecord true true] init) =
      run [Ev.clickRecord true true] init :=
  ⟨(c2_mutual_exclusion_amended (run [Ev.clickRecord true true] init)
      ⟨[Ev.clickRecord true true], rfl⟩).1,
   (c2_mutual_exclusion_amended (run [Ev.clickRecord true true] init)
      ⟨[Ev.clickRecord true true], rfl⟩).2.1 true true (Or.inl (by decide))⟩

/-- C3 (counterexample).  The second half of the claim fails: when the
external session ends spontaneously (or errors), `onend` does not clear
`interimTranscript`, so the interim text stays non-empty while no live
recording session is active. -/
theorem c3_counterexample :
    (run [Ev.clickRecord true true, Ev.result [(false, "wor")], Ev.ended false]
        init).isRecording = false ∧
    (run [Ev.clickRecord true true, Ev.result [(false, "wor")], Ev.ended false]
        init).sessionActive = false ∧
    (run [Ev.clickRecord true true, Ev.result [(false, "wor")], Ev.ended false]
        init).interimTranscript = "wor" := by
  decide

/-- C3 (amended).  The display invariant holds: after every sequence of
events the displayed text is exactly `finalText ++ interimText`
(`currentTranscript`, `page.tsx` line 384).  The interim text is
cleared by a manual `stop()` during a recording, but it may remain
non-empty after the session ends spontaneously or on error. -/
theorem c3_display_invariant_amended (evs : List Ev) (s : St)
    (hrec : s.isRecording = true) (hh : s.recognition.isSome = true) :
    currentTranscript (run evs init) =
      (run evs init).finalTranscript ++ (run evs init).interimTranscript ∧
    (stopRecordingStep s).interimTranscript = "" := by
  refine ⟨rfl, ?_⟩
  unfold stopRecordingStep
  simp [hrec, hh]

/-- C3 (witness for the amended theorem). -/
theorem c3_display_invariant_amended_witness :
    currentTranscript (run [Ev.clickRecord true true,
        Ev.result [(true, "hello"), (false, "wor")]] init) =
      (run [Ev.clickRecord true true,
        Ev.result [(true, "hello"), (false, "wor")]] init).finalTranscript ++
      (run [Ev.clickRecord true true,
        Ev.result [(true, "hello"), (false, "wor")]] init).interimTranscript ∧
    (stopRecordingStep (run [Ev.clickRecord true true] init)).interimTranscript
      = "" :=
  c3_display_invariant_amended
    [Ev.clickRecord true true, Ev.result [(true, "hello"), (false, "wor")]]
    (run [Ev.clickRecord true true] init) (by decide) (by decide)

/-- C5 (counterexample).  The claim says every failure path — including
a file read failure — sets `finalText` to a failure placeholder.  But
`reader.onerror` (`page.tsx` lines 277–288) only resets the asset and
clears the loading flag: `finalTranscript` stays empty (it was cleared
at selection), not a failure placeholder. -/
theorem c5_counterexample :
    (readerErrorStep (handleFileChangeStep "a.mp3" "audio/mpeg" init)).finalTranscript
        = "" ∧
    (readerErrorStep (handleFileChangeStep "a.mp3" "audio/mpeg" init)).finalTranscript
        ≠ "Failed to transcribe: a.mp3" ∧
    (readerErrorStep (handleFileChangeStep "a.mp3" "audio/mpeg" init)).isProcessing
        = false := by
  decide

/-- C5 (amended).  An empty or missing `transcription` field is treated
as a failure: on a thrown remote error and on an empty response the
transcript is set to the failure placeholder `Failed to transcribe: `
followed by the file name; on a non-empty response it is replaced by
the transcription; on a file read failure the transcript is left as it
was (empty, having been cleared at selection) and only the asset is
reset.  On every one of these exit paths the loading flag is
cleared. -/
theorem c5_failure_handling_amended (s s' : St) (fname t : String)
    (hc : s.pendingCall = some fname) (ht : ¬t = "")
    (hr : s'.pendingRead.isSome = true) :
    ((transcribeResolveStep none s).finalTranscript
        = "Failed to transcribe: " ++ fname ∧
      (transcribeResolveStep none s).isProcessing = false) ∧
    ((transcribeResolveStep (some "") s).finalTranscript
        = "Failed to transcribe: " ++ fname ∧
      (transcribeResolveStep (some "") s).isProcessing = false) ∧
    ((transcribeResolveStep (some t) s).finalTranscript = t ∧
      (transcribeResolveStep (some t) s).isProcessing = false) ∧
    ((readerErrorStep s').finalTranscript = s'.finalTranscript ∧
      (readerErrorStep s').isProcessing = false) := by
  obtain ⟨x, hx⟩ := Option.isSome_iff_exists.mp hr
  refine ⟨?_, ?_, ?_, ?_⟩ <;>
    simp [transcribeResolveStep, readerErrorStep, hc, ht, hx]

/-- C5 (witness for the amended theorem), at the state reached after
selecting a valid file and completing the read. -/
theorem c5_failure_handling_amended_witness :
    ((transcribeResolveStep none
        (readerLoadEndStep "u" (handleFileChangeStep "a.mp3" "audio/mpeg" init))).finalTranscript
        = "Failed to transcribe: " ++ "a.mp3" ∧
      (transcribeResolveStep none
        (readerLoadEndStep "u" (handleFileChangeStep "a.mp3" "audio/mpeg" init))).isProcessing = false) ∧
    ((transcribeResolveStep (some "")
        (readerLoadEndStep "u" (handleFileChangeStep "a.mp3" "audio/mpeg" init))).finalTranscript
        = "Failed to transcribe: " ++ "a.mp3" ∧
      (transcribeResolveStep (some "")
        (readerLoadEndStep "u" (handleFileChangeStep "a.mp3" "audio/mpeg" init))).isProcessing = false) ∧
    ((transcribeResolveStep (some "hi")
        (readerLoadEndStep "u" (handleFileChangeStep "a.mp3" "audio/mpeg" init))).finalTranscript = "hi" ∧
      (transcribeResolveStep (some "hi")
        (readerLoadEndStep "u" (handleFileChangeStep "a.mp3" "audio/mpeg" init))).isProcessing = false) ∧
    ((readerErrorStep (handleFileChangeStep "a.mp3" "audio/mpeg" init)).finalTranscript
        = (handleFileChangeStep "a.mp3" "audio/mpeg" init).finalTranscript ∧
      (readerErrorStep (handleFileChangeStep "a.mp3" "audio/mpeg" init)).isProcessing = false) :=
  c5_failure_handling_amended
    (readerLoadEndStep "u" (handleFileChangeStep "a.mp3" "audio/mpeg" init))
    (handleFileChangeStep "a.mp3" "audio/mpeg" init)
    "a.mp3" "hi" (by decide) (by decide) (by decide)

/-- C6 (counterexample).  The claim says calling `stop()` sets a
stopping flag and SessionMode becomes `Idle`.  `stopRecording`
(`page.tsx` lines 179–189) sets no flag and does not change
`isRecording`: immediately after the call the mode is still
`LiveRecording` (the comment defers the flag changes to `onend`). -/
theorem c6_counterexample :
    (run [Ev.clickRecord true true] init).isRecording = true ∧
    (stopRecordingStep (run [Ev.clickRecord true true] init)).isRecording = true := by
  decide

/-- C6 (amended).  In a `LiveRecording` state, `stop()` requests the
external session to end and clears `interimTranscript` immediately,
leaving `finalTranscript` exactly as it was; no stopping flag is set
(none exists — the absence of a restart comes from the `onend`
closure's captured `isRecording = false`); the mode becomes `Idle`
only when the subsequent `onend` event fires, with `finalTranscript`
still unchanged and the interim text still empty. -/
theorem c6_stop_postcondition_amended (s : St) (rk : Bool)
    (hrec : s.isRecording = true) (hh : s.recognition = some ⟨false⟩) :
    (stopRecordingStep s).interimTranscript = "" ∧
    (stopRecordingStep s).finalTranscript = s.finalTranscript ∧
    (stopRecordingStep s).isRecording = true ∧
    (onendStep rk (stopRecordingStep s)).isRecording = false ∧
    (onendStep rk (stopRecordingStep s)).isProcessing = false ∧
    (onendStep rk (stopRecordingStep s)).finalTranscript = s.finalTranscript ∧
    (onendStep rk (stopRecordingStep s)).interimTranscript = "" := by
  unfold stopRecordingStep onendStep
  simp [hrec, hh]

/-- C6 (witness for the amended theorem), at the state reached after a
recording has started and produced one final segment. -/
theorem c6_stop_postcondition_amended_witness :
    (stopRecordingStep (run [Ev.clickRecord true true, Ev.result [(true, "hi")]]
        init)).interimTranscript = "" ∧
    (stopRecordingStep (run [Ev.clickRecord true true, Ev.result [(true, "hi")]]
        init)).finalTranscript =
      (run [Ev.clickRecord true true, Ev.result [(true, "hi")]] init).finalTranscript ∧
    (stopRecordingStep (run [Ev.clickRecord true true, Ev.result [(true, "hi")]]
        init)).isRecording = true ∧
    (onendStep false (stopRecordingStep (run [Ev.clickRecord true true,
        Ev.result [(true, "hi")]] init))).isRecording = false ∧
    (onendStep false (stopRecordingStep (run [Ev.clickRecord true true,
        Ev.result [(true, "hi")]] init))).isProcessing = false ∧
    (onendStep false (stopRecordingStep (run [Ev.clickRecord true true,
        Ev.result [(true, "hi")]] init))).finalTranscript =
      (run [Ev.clickRecord true true, Ev.result [(true, "hi")]] init).finalTranscript ∧
    (onendStep false (stopRecordingStep (run [Ev.clickRecord true true,
        Ev.result [(true, "hi")]] init))).interimTranscript = "" :=
  c6_stop_postcondition_amended
    (run [Ev.clickRecord true true, Ev.result [(true, "hi")]] init)
    false (by decide) (by decide)

/-- C7 (counterexample).  The claim says each final fragment is
appended followed by a single space (`finalText += segment + " "`).
The code's `onresult` loop instead concatenates all final fragments of
the event and appends one space per event: on an event with two final
fragments `"a"` and `"b"`, the code produces `"ab "` whereas the
claimed per-segment rule produces `"a b "`. -/
theorem c7_counterexample :
    (onresultStep [(true, "a"), (true, "b")] init).finalTranscript = "ab " ∧
    (specMergeStep [(true, "a"), (true, "b")] init).finalTranscript = "a b " ∧
    ("ab " : String) ≠ "a b " := by
  decide

/-- C7 (amended).  On each delivery event the results are classified
final vs. non-final in arrival order with no reordering or
deduplication: the non-final fragments, concatenated in arrival order,
replace `interimTranscript` wholesale; the final fragments are
concatenated in arrival order and appended to `finalTranscript` as one
block followed by a single space — a space per event, not per fragment
— and nothing is appended when the concatenation is empty. -/
theorem c7_merge_rule_amended (s : St) (rs : List (Bool × String)) :
    (onresultStep rs s).interimTranscript = concatNonFinal rs ∧
    (onresultStep rs s).finalTranscript =
      (if concatFinals rs = "" then s.finalTranscript
       else s.finalTranscript ++ concatFinals rs ++ " ") := by
  unfold onresultStep
  rw [splitResults_eq]
  exact ⟨rfl, rfl⟩

/-- C7 (witness for the amended theorem), on a mixed event. -/
theorem c7_merge_rule_amended_witness :
    (onresultStep [(true, "a"), (false, "b")] init).interimTranscript =
      concatNonFinal [(true, "a"), (false, "b")] ∧
    (onresultStep [(true, "a"), (false, "b")] init).finalTranscript =
      (if concatFinals [(true, "a"), (false, "b")] = "" then init.finalTranscript
       else init.finalTranscript ++ concatFinals [(true, "a"), (false, "b")] ++ " ") :=
  c7_merge_rule_amended init [(true, "a"), (false, "b")]

/-- C8 (counterexample).  The claim says rejection of a non-audio file
leaves state unchanged.  When a previously uploaded asset exists, the
rejection branch of `handleFileChange` nulls `uploadedFileName` and
`uploadedAudioDataUri` (`page.tsx` lines 224–226), so the existing
asset reference is discarded: the state is changed. -/
theorem c8_counterexample :
    (run [Ev.selectFile "a.mp3" "audio/mpeg", Ev.readEnd "u",
        Ev.transResolve (some "hi")] init).uploadedFileName = some "a.mp3" ∧
    (handleFileChangeStep "notes.txt" "text/plain"
      (run [Ev.selectFile "a.mp3" "audio/mpeg", Ev.readEnd "u",
        Ev.transResolve (some "hi")] init)).uploadedFileName = none := by
  decide

/-- C8 (amended).  Selecting a file whose declared content type does
not begin with `audio/` is rejected (`Invalid File Type`): the
Transcript Buffer (`finalTranscript` and `interimTranscript`) is not
modified, no asset or in-flight work is created, and the mode flags are
untouched; however the uploaded-file fields are reset to `none`, so a
previously uploaded asset reference is cleared rather than kept. -/
theorem c8_invalid_file_amended (s : St) (fname ftype : String)
    (h : typeIsAudio ftype = false) :
    (handleFileChangeStep fname ftype s).finalTranscript = s.finalTranscript ∧
    (handleFileChangeStep fname ftype s).interimTranscript = s.interimTranscript ∧
    (handleFileChangeStep fname ftype s).pendingRead = s.pendingRead ∧
    (handleFileChangeStep fname ftype s).pendingCall = s.pendingCall ∧
    (handleFileChangeStep fname ftype s).isProcessing = s.isProcessing ∧
    (handleFileChangeStep fname ftype s).isRecording = s.isRecording ∧
    (handleFileChangeStep fname ftype s).isSummarizing = s.isSummarizing ∧
    (handleFileChangeStep fname ftype s).uploadedFileName = none ∧
    (handleFileChangeStep fname ftype s).uploadedAudioDataUri = none := by
  unfold handleFileChangeStep
  simp [h]

/-- C8 (witness for the amended theorem): a text file at the initial
state. -/
theorem c8_invalid_file_amended_witness :
    (handleFileChangeStep "notes.txt" "text/plain" init).finalTranscript
        = init.finalTranscript ∧
    (handleFileChangeStep "notes.txt" "text/plain" init).interimTranscript
        = init.interimTranscript ∧
    (handleFileChangeStep "notes.txt" "text/plain" init).pendingRead
        = init.pendingRead ∧
    (handleFileChangeStep "notes.txt" "text/plain" init).pendingCall
        = init.pendingCall ∧
    (handleFileChangeStep "notes.txt" "text/plain" init).isProcessing
        = init.isProcessing ∧
    (handleFileChangeStep "notes.txt" "text/plain" init).isRecording
        = init.isRecording ∧
    (handleFileChangeStep "notes.txt" "text/plain" init).isSummarizing
        = init.isSummarizing ∧
    (handleFileChangeStep "notes.txt" "text/plain" init).uploadedFileName = none ∧
    (handleFileChangeStep "notes.txt" "text/plain" init).uploadedAudioDataUri
        = none :=
  c8_invalid_file_amended init "notes.txt" "text/plain" (by decide)

/-- C9 (confirmed).  Download contract: with an empty `finalTranscript`
the download is rejected (`Nothing to Download`, modelled as `none`);
otherwise it produces a plain-text file named
`noiscript_transcription.txt` whose content is exactly
`finalTranscript` — for every state, so the interim text is never
included. -/
theorem c9_download_contract (s : St) :
    (s.finalTranscript = "" → downloadTranscriptResult s = none) ∧
    (¬s.finalTranscript = "" →
      downloadTranscriptResult s =
        some ("noiscript_transcription.txt", s.finalTranscript)) := by
  unfold downloadTranscriptResult
  constructor <;> intro h <;> simp [h]

/-- C9 (witness): at the initial state the download is rejected; at a
reachable state whose final text is `"hi "` while the interim text is
the non-empty leftover `"wor"`, the download carries exactly the final
text. -/
theorem c9_download_contract_witness :
    downloadTranscriptResult init = none ∧
    downloadTranscriptResult (run [Ev.clickRecord true true,
        Ev.result [(true, "hi"), (false, "wor")], Ev.ended false] init) =
      some ("noiscript_transcription.txt",
        (run [Ev.clickRecord true true,
          Ev.result [(true, "hi"), (false, "wor")], Ev.ended false] init).finalTranscript) :=
  ⟨(c9_download_contract init).1 rfl,
   (c9_download_contract (run [Ev.clickRecord true true,
      Ev.result [(true, "hi"), (false, "wor")], Ev.ended false] init)).2 (by decide)⟩

/-- C10 (confirmed).  Summarization postcondition: invoked with a
non-empty `finalTranscript` and no summarization running, the flag is
set and the current transcript captured; when the remote call returns a
non-empty summary the transcript becomes
`"Summary:\n" ++ summary ++ "\n\nOriginal Transcription:\n"` followed
by the previous transcript; when the call throws or returns an empty
summary the transcript is left unchanged; on every path the
summarizing flag is cleared when the call finishes. -/
theorem c10_summarize_postcondition (s : St) (sum : String)
    (hft : ¬s.finalTranscript = "") (hs : s.isSummarizing = false)
    (hsum : ¬sum = "") :
    (handleSummarizeStep s).isSummarizing = true ∧
    (handleSummarizeStep s).pendingSummary = some s.finalTranscript ∧
    (handleSummarizeStep s).finalTranscript = s.finalTranscript ∧
    (summarizeResolveStep (some sum) (handleSummarizeStep s)).finalTranscript =
      "Summary:\n" ++ sum ++ "\n\nOriginal Transcription:\n" ++ s.finalTranscript ∧
    (summarizeResolveStep (some sum) (handleSummarizeStep s)).isSummarizing = false ∧
    (summarizeResolveStep (some "") (handleSummarizeStep s)).finalTranscript =
      s.finalTranscript ∧
    (summarizeResolveStep (some "") (handleSummarizeStep s)).isSummarizing = false ∧
    (summarizeResolveStep none (handleSummarizeStep s)).finalTranscript =
      s.finalTranscript ∧
    (summarizeResolveStep none (handleSummarizeStep s)).isSummarizing = false := by
  unfold handleSummarizeStep summarizeResolveStep
  simp [hft, hs, hsum]

/-- C10 (witness): a state whose transcript is `"hi "` and the summary
`"sum"`. -/
theorem c10_summarize_postcondition_witness :
    (handleSummarizeStep (run [Ev.clickRecord true true, Ev.result [(true, "hi")],
        Ev.ended false] init)).isSummarizing = true ∧
    (handleSummarizeStep (run [Ev.clickRecord true true, Ev.result [(true, "hi")],
        Ev.ended false] init)).pendingSummary =
      some (run [Ev.clickRecord true true, Ev.result [(true, "hi")],
        Ev.ended false] init).finalTranscript ∧
    (handleSummarizeStep (run [Ev.clickRecord true true, Ev.result [(true, "hi")],
        Ev.ended false] init)).finalTranscript =
      (run [Ev.clickRecord true true, Ev.result [(true, "hi")],
        Ev.ended false] init).finalTranscript ∧
    (summarizeResolveStep (some "sum") (handleSummarizeStep
        (run [Ev.clickRecord true true, Ev.result [(true, "hi")],
          Ev.ended false] init))).finalTranscript =
      "Summary:\n" ++ "sum" ++ "\n\nOriginal Transcription:\n" ++
        (run [Ev.clickRecord true true, Ev.result [(true, "hi")],
          Ev.ended false] init).finalTranscript ∧
    (summarizeResolveStep (some "sum") (handleSummarizeStep
        (run [Ev.clickRecord true true, Ev.result [(true, "hi")],
          Ev.ended false] init))).isSummarizing = false ∧
    (summarizeResolveStep (some "") (handleSummarizeStep
        (run [Ev.clickRecord true true, Ev.result [(true, "hi")],
          Ev.ended false] init))).finalTranscript =
      (run [Ev.clickRecord true true, Ev.result [(true, "hi")],
        Ev.ended false] init).finalTranscript ∧
    (summarizeResolveStep (some "") (handleSummarizeStep
        (run [Ev.clickRecord true true, Ev.result [(true, "hi")],
          Ev.ended false] init))).isSummarizing = false ∧
    (summarizeResolveStep none (handleSummarizeStep
        (run [Ev.clickRecord true true, Ev.result [(true, "hi")],
          Ev.ended false] init))).finalTranscript =
      (run [Ev.clickRecord true true, Ev.result [(true, "hi")],
        Ev.ended false] init).finalTranscript ∧
    (summarizeResolveStep none (handleSummarizeStep
        (run [Ev.clickRecord true true, Ev.result [(true, "hi")],
          Ev.ended false] init))).isSummarizing = false :=
  c10_summarize_postcondition
    (run [Ev.clickRecord true true, Ev.result [(true, "hi")], Ev.ended false] init)
    "sum" (by decide) (by decide) (by decide)

end NoiScript
